import Mathlib

/-!
Verification of the payment-gateway protocol layer and status-reconciliation
engine of the sukruthakeralam donation backend.

The development shallowly embeds the relevant Python code:

* `src/core/payment/sbiepay/client.py` — the encrypted pipe-delimited codec
  (`_pad`, `_unpad`, `_encrypt`, `_decrypt`, `handle_payment_response`,
  `create_payment`'s transaction packet);
* `src/core/payment/phonepe/client.py` — the bearer-token cache
  (`_is_token_valid`, `_ensure_auth_token`) and the create-payment amount;
* `src/apps/payments/service.py` — the reconciler
  (`get_phonepe_payment_status`, `handle_sbiepay_response`,
  `verify_sbiepay_transaction`, `_update_donation_status`,
  `_send_donation_thank_you_email_safe`).

Byte strings are `List Nat`; Python exceptions are an explicit error type;
the database session is an explicit state record threaded through the
service functions.  External library primitives (PyCryptodome AES-CBC,
base64, hashlib, the UTF-8 codec, `Decimal`) are not repository code and are
abstracted as a parameter record carrying exactly the contracts the proofs
use; `idPrims` is a trivial executable instantiation used by witnesses.
-/

namespace SukruthaKeralam

/-- Byte strings, one `Nat` per byte (values below 256 in practice; no
arithmetic on bytes occurs in the embedded code, only equality tests). -/
abbrev Bytes := List Nat

/-- The ASCII code of the pipe separator character. -/
def pipeByte : Nat := 124

/-- Python exception classes that can arise inside the embedded code.
`sbiePayErr` is the client's typed `SbiePayError`; the others are the
builtin exceptions raised by slicing, `Decimal`, the UTF-8 codec, base64
and PyCryptodome respectively. -/
inductive PyError where
  | sbiePayErr (msg : String)
  | indexErr
  | valueErr
  | unicodeErr
  | binasciiErr
  deriving Repr, DecidableEq

namespace SbiePayClient

/-- Translation of the method named "_pad" in
src/core/payment/sbiepay/client.py (lines 60-64): PKCS#7-style padding of a
byte array to the 16-byte AES block size. -/
def pad (byteArray : Bytes) : Bytes :=
  let padLen := 16 - byteArray.length % 16
  byteArray ++ List.replicate padLen padLen

/-- Translation of the method named "_unpad" in
src/core/payment/sbiepay/client.py (lines 66-69).  The Python body reads the
last byte n and returns the slice from 0 to -n.  Python slicing semantics:
when n is 0 the slice from 0 to 0 is empty; when n is at least the length
the slice is also empty (clamped); on an empty input, indexing position -1
raises IndexError.  No PKCS#7 validation of any kind is performed. -/
def unpad (byteArray : Bytes) : Except PyError Bytes :=
  match byteArray.getLast? with
  | none => .error .indexErr
  | some lastByte =>
      if lastByte = 0 then .ok []
      else .ok (byteArray.take (byteArray.length - lastByte))

/-- External library primitives used by `SbiePayClient` (PyCryptodome
AES-256-CBC under the fixed pre-shared key, base64, hashlib hex digests, the
UTF-8 decoder, `Decimal` parsing).  These are library code, not repository
code, so they are abstracted as parameters together with the inverse
contracts the round-trip proof relies on.  The fallible ones return
`Except Unit` because the embedded code only ever observes whether they
raised, never which message. -/
structure Primitives where
  aesEnc : Bytes → Bytes → Bytes
  aesDec : Bytes → Bytes → Except Unit Bytes
  b64encode : Bytes → Bytes
  b64decode : Bytes → Except Unit Bytes
  shaHex : String → Bytes → Bytes
  utf8decode : Bytes → Except Unit Bytes
  parseDecimal : Bytes → Except Unit Int
  aes_dec_enc : ∀ iv b, aesDec iv (aesEnc iv b) = Except.ok b
  b64_roundtrip : ∀ b, b64decode (b64encode b) = Except.ok b

/-- Trivial executable instantiation of the external primitives (identity
cipher and transport), used to evaluate the embedded client on concrete
inputs. -/
def idPrims : Primitives where
  aesEnc := fun _ b => b
  aesDec := fun _ b => .ok b
  b64encode := id
  b64decode := .ok
  shaHex := fun _ b => b
  utf8decode := .ok
  parseDecimal := fun _ => .ok 0
  aes_dec_enc := fun _ _ => rfl
  b64_roundtrip := fun _ => rfl

/-- Translation of the method named "_encrypt" in
src/core/payment/sbiepay/client.py (lines 71-93).  The SHA-256/SHA-512 hex
digest `result` is computed according to `shaType` and then never used: the
very next line sets `concatePipe = message`, so the plaintext that is padded
and encrypted is exactly `message`.  The fresh random IV from `os.urandom`
is a parameter.  The input is the UTF-8 encoding of the message string. -/
def encrypt (P : Primitives) (shaType : String) (iv : Bytes) (message : Bytes) : Bytes :=
  let result :=
    if shaType = "SHA256" then P.shaHex "SHA256" message
    else if shaType = "SHA512" then P.shaHex "SHA512" message
    else P.shaHex "SHA256" message
  let concatePipe := message
  let byteArray := concatePipe
  let padded := pad byteArray
  let _ := result
  P.b64encode (iv ++ P.aesEnc iv padded)

/-- Body of the method named "_decrypt" in src/core/payment/sbiepay/client.py
(lines 95-107) before its try/except wrapper: base64-decode, split the first
16 bytes as IV, AES-CBC decrypt the rest, strip padding via `unpad`, UTF-8
decode.  `AES.new` raises ValueError when the IV is shorter than 16 bytes
(which happens exactly when the base64-decoded input is shorter than 16). -/
def decryptBody (P : Primitives) (message : Bytes) : Except PyError Bytes := do
  let byteArray ← (P.b64decode message).mapError fun _ => PyError.binasciiErr
  let iv := byteArray.take 16
  let messagebytes := byteArray.drop 16
  if iv.length = 16 then
    let decryptedPadded ← (P.aesDec iv messagebytes).mapError fun _ => PyError.valueErr
    let decrypted ← unpad decryptedPadded
    (P.utf8decode decrypted).mapError fun _ => PyError.unicodeErr
  else
    .error .valueErr

/-- Translation of the method named "_decrypt" in
src/core/payment/sbiepay/client.py (lines 95-107): the whole body runs under
a try/except that converts any internal exception into the typed
`SbiePayError` with a fixed message. -/
def decrypt (P : Primitives) (message : Bytes) : Except PyError Bytes :=
  match decryptBody P message with
  | .ok s => .ok s
  | .error _ => .error (.sbiePayErr "Decryption failed during response handling.")

/-- Pipe-joining of fields, the byte-level counterpart of the f-string
interpolation used to build packets (a list of fields separated by the pipe
byte). -/
def joinFields : List Bytes → Bytes
  | [] => []
  | [f] => f
  | f :: g :: rest => f ++ pipeByte :: joinFields (g :: rest)

/-- Python split on the pipe character, as performed by
`decrypted_string.split` in `handle_payment_response`: splitting the empty
string yields one empty field, and every pipe byte starts a new field. -/
def splitFields : Bytes → List Bytes
  | [] => [[]]
  | c :: rest =>
      let r := splitFields rest
      if c = pipeByte then [] :: r
      else
        match r with
        | [] => [[c]]
        | f :: fs => (c :: f) :: fs

theorem splitFields_ne_nil (b : Bytes) : splitFields b ≠ [] := by
  induction b with
  | nil => simp [splitFields]
  | cons c rest ih =>
      simp only [splitFields]
      by_cases h : c = pipeByte
      · simp [h]
      · simp only [if_neg h]
        cases hr : splitFields rest with
        | nil => simp
        | cons f fs => simp

theorem splitFields_append_nopipe (f rest : Bytes) (hf : pipeByte ∉ f) :
    splitFields (f ++ rest) =
      (f ++ (splitFields rest).headI) :: (splitFields rest).tail := by
  induction f with
  | nil =>
      simp only [List.nil_append, List.headI]
      cases hr : splitFields rest with
      | nil => exact absurd hr (splitFields_ne_nil rest)
      | cons g gs => simp
  | cons c cs ih =>
      have hc : c ≠ pipeByte := fun h => hf (h ▸ List.mem_cons_self c cs)
      have hcs : pipeByte ∉ cs := fun h => hf (List.mem_cons_of_mem c h)
      simp only [List.cons_append, splitFields, if_neg hc]
      rw [show cs.append rest = cs ++ rest from rfl, ih hcs]

theorem splitFields_joinFields (fields : List Bytes)
    (hne : fields ≠ [])
    (hpipe : ∀ f ∈ fields, pipeByte ∉ f) :
    splitFields (joinFields fields) = fields := by
  induction fields with
  | nil => exact absurd rfl hne
  | cons f rest ih =>
      cases rest with
      | nil =>
          have hf : pipeByte ∉ f := hpipe f (List.mem_cons_self f [])
          have := splitFields_append_nopipe f [] hf
          simpa [joinFields, splitFields] using this
      | cons g gs =>
          have hf : pipeByte ∉ f := hpipe f (List.mem_cons_self f _)
          have hrest : ∀ x ∈ g :: gs, pipeByte ∉ x :=
            fun x hx => hpipe x (List.mem_cons_of_mem f hx)
          have ihr := ih (by simp) hrest
          simp only [joinFields, splitFields_append_nopipe f _ hf]
          rw [show splitFields (pipeByte :: joinFields (g :: gs)) =
                [] :: splitFields (joinFields (g :: gs)) by simp [splitFields]]
          rw [ihr]
          simp

theorem exceptOkBind {ε α β : Type} (a : α) (f : α → Except ε β) :
    (Except.ok (ε := ε) a >>= f) = f a := rfl

theorem exceptMapErrorOk {ε ε' α : Type} (a : α) (f : ε → ε') :
    (Except.ok (ε := ε) a).mapError f = Except.ok a := rfl

theorem unpad_pad (m : Bytes) : unpad (pad m) = Except.ok m := by
  have hpos : 0 < 16 - m.length % 16 :=
    Nat.sub_pos_of_lt (Nat.mod_lt _ (by norm_num))
  obtain ⟨k, hk⟩ : ∃ k, 16 - m.length % 16 = k + 1 :=
    ⟨16 - m.length % 16 - 1, (Nat.succ_pred_eq_of_pos hpos).symm⟩
  have hpadm : pad m = m ++ List.replicate (k + 1) (k + 1) := by
    simp only [pad, hk]
  have hlast : (pad m).getLast? = some (k + 1) := by
    rw [hpadm, List.replicate_succ' k, ← List.append_assoc]
    exact List.getLast?_concat _
  have hlen : (pad m).length = m.length + (k + 1) := by
    rw [hpadm]
    simp [List.length_append, List.length_replicate]
  simp only [unpad, hlast]
  rw [if_neg (Nat.succ_ne_zero k)]
  congr 1
  rw [hlen, Nat.add_sub_cancel, hpadm]
  exact List.take_left' rfl

theorem decrypt_encrypt (P : Primitives) (shaType : String) (iv : Bytes) (m : Bytes)
    (hiv : iv.length = 16)
    (hutf8 : P.utf8decode m = Except.ok m) :
    decrypt P (encrypt P shaType iv m) = Except.ok m := by
  have hbody : decryptBody P (encrypt P shaType iv m) = Except.ok m := by
    rw [decryptBody, encrypt]
    rw [P.b64_roundtrip, exceptMapErrorOk, exceptOkBind]
    rw [List.take_left' hiv, List.drop_left' hiv, if_pos hiv]
    rw [P.aes_dec_enc, exceptMapErrorOk, exceptOkBind]
    rw [unpad_pad, exceptOkBind, hutf8, exceptMapErrorOk]
  rw [decrypt, hbody]

/-- The parsed field record built by `handle_payment_response`
(src/core/payment/sbiepay/client.py lines 192-217): fifteen required
positional fields and up to nine optional trailing "ref" fields. -/
structure SbiePayResponseData where
  merchant_order_number : Bytes
  sbiepay_ref_id : Bytes
  transaction_status : Bytes
  amount : Int
  currency : Bytes
  pay_mode : Bytes
  other_details : Bytes
  reason_message : Bytes
  bank_code : Bytes
  bank_reference_number : Bytes
  transaction_date : Bytes
  country : Bytes
  cin : Bytes
  merchent_id : Bytes
  total_fee_gst : Bytes
  ref1 : Option Bytes
  ref2 : Option Bytes
  ref3 : Option Bytes
  ref4 : Option Bytes
  ref5 : Option Bytes
  ref6 : Option Bytes
  ref7 : Option Bytes
  ref8 : Option Bytes
  ref9 : Option Bytes
  deriving Repr, DecidableEq

/-- Positional field access: Python list indexing raises IndexError when the
index is out of range. -/
def idx (fs : List Bytes) (i : Nat) : Except PyError Bytes :=
  match fs[i]? with
  | some v => .ok v
  | none => .error .indexErr

/-- The field mapping of `handle_payment_response` (client.py lines 192-217):
positions 0-14 are required (an absent one raises IndexError), position 3 is
parsed by `Decimal` (raising on a non-numeric field), positions 15-23 are
optional and default to None. -/
def parseResponseData (P : Primitives) (fs : List Bytes) :
    Except PyError SbiePayResponseData := do
  let f0 ← idx fs 0
  let f1 ← idx fs 1
  let f2 ← idx fs 2
  let f3 ← idx fs 3
  let f4 ← idx fs 4
  let f5 ← idx fs 5
  let f6 ← idx fs 6
  let f7 ← idx fs 7
  let f8 ← idx fs 8
  let f9 ← idx fs 9
  let f10 ← idx fs 10
  let f11 ← idx fs 11
  let f12 ← idx fs 12
  let f13 ← idx fs 13
  let f14 ← idx fs 14
  let amt ← (P.parseDecimal f3).mapError fun _ => PyError.valueErr
  return {
    merchant_order_number := f0
    sbiepay_ref_id := f1
    transaction_status := f2
    amount := amt
    currency := f4
    pay_mode := f5
    other_details := f6
    reason_message := f7
    bank_code := f8
    bank_reference_number := f9
    transaction_date := f10
    country := f11
    cin := f12
    merchent_id := f13
    total_fee_gst := f14
    ref1 := fs[15]?
    ref2 := fs[16]?
    ref3 := fs[17]?
    ref4 := fs[18]?
    ref5 := fs[19]?
    ref6 := fs[20]?
    ref7 := fs[21]?
    ref8 := fs[22]?
    ref9 := fs[23]? }

/-- The dictionary returned by `handle_payment_response`: either the
success dictionary with the parsed data and the decrypted raw string, or the
error dictionary built in the `except SbiePayError` branch. -/
inductive HandleResponseResult where
  | success (data : SbiePayResponseData) (rawData : Bytes)
  | errorResult (message : String)
  deriving Repr, DecidableEq

/-- The try-block of `handle_payment_response` (client.py lines 188-226):
decrypt, split on the pipe character, map positions to named fields. -/
def handleBody (P : Primitives) (encryptedResponse : Bytes) :
    Except PyError HandleResponseResult := do
  let decryptedString ← decrypt P encryptedResponse
  let responseFields := splitFields decryptedString
  let parsedData ← parseResponseData P responseFields
  return .success parsedData decryptedString

/-- Translation of `handle_payment_response`
(src/core/payment/sbiepay/client.py lines 173-239).  A raised `SbiePayError`
(only `_decrypt` raises it here) is caught and converted into the error
dictionary; any other exception (IndexError from a short field list, a
`Decimal` parse failure, a pydantic validation error) is caught by the
catch-all branch and re-raised as a `SbiePayError`. -/
def handle_payment_response (P : Primitives) (encryptedResponse : Bytes) :
    Except PyError HandleResponseResult :=
  match handleBody P encryptedResponse with
  | .ok r => .ok r
  | .error (.sbiePayErr m) => .ok (.errorResult m)
  | .error _ => .error (.sbiePayErr "Response handling failed")

/-- UTF-8 encoding of a string as its byte list.  The packets built by the
client consist of ASCII configuration values and order identifiers, for
which each character is one byte whose value is the character's code. -/
def strBytes (s : String) : Bytes := s.data.map Char.toNat

/-- The fourteen fields of the outbound transaction packet, in the order the
f-string of `create_payment` interpolates them
(src/core/payment/sbiepay/client.py lines 135-139). -/
def transactionPacketFields (merchantId successUrl failUrl aggregatorId
    amountStr merchantOrderId customerId : String) : List String :=
  [merchantId, "DOM", "IN", "INR", amountStr, "NA", successUrl, failUrl,
   aggregatorId, merchantOrderId, customerId, "NB", "ONLINE", "ONLINE"]

/-- The transaction packet itself, the literal f-string of `create_payment`
(src/core/payment/sbiepay/client.py lines 135-139). -/
def transactionPacket (merchantId successUrl failUrl aggregatorId
    amountStr merchantOrderId customerId : String) : String :=
  merchantId ++ "|DOM|IN|INR|" ++ amountStr ++ "|NA|" ++
  successUrl ++ "|" ++ failUrl ++ "|" ++
  aggregatorId ++ "|" ++ merchantOrderId ++ "|" ++ customerId ++ "|NB|ONLINE|ONLINE"

theorem strBytes_append (a b : String) :
    strBytes (a ++ b) = strBytes a ++ strBytes b := by
  simp [strBytes, String.data_append]

/-- The f-string concatenation equals the pipe-join of the fourteen fields. -/
theorem transactionPacket_eq_joinFields (merchantId successUrl failUrl
    aggregatorId amountStr merchantOrderId customerId : String) :
    strBytes (transactionPacket merchantId successUrl failUrl aggregatorId
        amountStr merchantOrderId customerId) =
      joinFields ((transactionPacketFields merchantId successUrl failUrl
        aggregatorId amountStr merchantOrderId customerId).map strBytes) := by
  simp only [transactionPacket, transactionPacketFields, List.map_cons,
    List.map_nil, joinFields, strBytes_append]
  simp only [show strBytes "|DOM|IN|INR|" =
      pipeByte :: (strBytes "DOM" ++ pipeByte :: (strBytes "IN" ++
        pipeByte :: (strBytes "INR" ++ [pipeByte]))) from rfl,
    show strBytes "|NA|" = pipeByte :: (strBytes "NA" ++ [pipeByte]) from rfl,
    show strBytes "|" = [pipeByte] from rfl,
    show strBytes "|NB|ONLINE|ONLINE" =
      pipeByte :: (strBytes "NB" ++ pipeByte :: (strBytes "ONLINE" ++
        pipeByte :: strBytes "ONLINE")) from rfl]
  simp [List.append_assoc]

end SbiePayClient

namespace PhonePeClient

/-- The process-local token cache of `PhonePeClient`
(src/core/payment/phonepe/client.py lines 122-123): `_auth_token` starts as
None and `_auth_token_expiry` as 0 (epoch milliseconds). -/
structure TokenState where
  auth_token : Option String
  auth_token_expiry : Int
  deriving Repr, DecidableEq

/-- Translation of `_is_token_valid` (phonepe/client.py lines 223-229).
The Python guard reads "if not self._auth_token", which is truthiness: both
None and the empty string fail it.  Otherwise the current epoch-millisecond
time must be strictly below the cached expiry. -/
def is_token_valid (st : TokenState) (now : Int) : Bool :=
  match st.auth_token with
  | none => false
  | some t => if t = "" then false else decide (now < st.auth_token_expiry)

/-- Translation of `_ensure_auth_token` (phonepe/client.py lines 231-234)
together with the cache write of `_get_auth_token` (lines 212-214): when the
cached token is invalid, one POST to the auth endpoint is made and the cache
is replaced with the fetched `access_token` and `expires_at`.  The gateway's
reply is a parameter; the second component counts auth HTTP calls made. -/
def ensure_auth_token (st : TokenState) (now : Int) (fetched : String × Int) :
    TokenState × Nat :=
  if is_token_valid st now then (st, 0)
  else ({ auth_token := some fetched.1, auth_token_expiry := fetched.2 }, 1)

/-- The amount placed in the create-payment request body
(phonepe/client.py line 264): the major-unit rupee amount multiplied by 100,
which pydantic coerces to the declared `int` field.  Exact rational
arithmetic models the float multiplication, which is exact for the amounts
at issue. -/
def createPaymentRequestAmount (amount : ℚ) : ℚ := amount * 100

end PhonePeClient

/-- Rendering of a Python float with integral value by an f-string, as in
the fifth packet field of the SbiePay `create_payment` f-string: an integral
float prints as its integer part followed by ".0". -/
def pyFloatStr (q : ℚ) : String :=
  if q.den = 1 then toString q.num ++ ".0" else toString q

/-- Value of a decimal digit character. -/
def decDigit? (c : Char) : Option Nat :=
  if c.isDigit then some (c.toNat - 48) else none

/-- Value of a digit string. -/
def digitsToNat? (cs : List Char) : Option Nat :=
  cs.foldl (fun acc c => do
    let a ← acc
    let d ← decDigit? c
    return a * 10 + d) (some 0)

/-- Splitting a character list on the decimal point. -/
def splitDot (cs : List Char) : List (List Char) :=
  match cs with
  | [] => [[]]
  | c :: rest =>
      let r := splitDot rest
      if c = '.' then [] :: r
      else
        match r with
        | [] => [[c]]
        | f :: fs => (c :: f) :: fs

/-- The rational number denoted by a plain decimal numeral string, used to
state that a rendered amount field carries a value unmodified. -/
def decimalValue? (s : String) : Option ℚ :=
  match splitDot s.data with
  | [ip] => (digitsToNat? ip).map (fun n => (n : ℚ))
  | [ip, fp] => do
      let a ← digitsToNat? ip
      let b ← digitsToNat? fp
      return (a : ℚ) + (b : ℚ) / ((10 : ℚ) ^ fp.length)
  | _ => none

namespace PaymentService

/-- Enum string values from src/apps/payments/schema.py and
src/apps/donation/schema.py. -/
def PhonePePaymentStatus.PENDING : String := "pending"

def PhonePePaymentStatus.FAILED : String := "failed"

def PhonePePaymentStatus.COMPLETED : String := "completed"

def SbiePayPaymentStatus.PENDING : String := "pending"

def SbiePayPaymentStatus.SUCCESS : String := "success"

def SbiePayPaymentStatus.FAILED : String := "failed"

def SbiePayPaymentStatus.EXPIRED : String := "expired"

def DonationStatus.PENDING : String := "pending"

def DonationStatus.PAYMENT_FAILED : String := "payment_failed"

def DonationStatus.COMPLETED : String := "completed"

/-- The columns of `SbiePayPaymentLog` (src/apps/payments/models.py) that the
reconciler reads or writes. -/
structure SbiePayLog where
  merchant_order_id : String
  sbiepay_ref_id : Option String
  payment_status : String
  sbiepay_response_data : Option String
  double_verification_data : Option String
  pay_mode : Option String
  bank_code : Option String
  bank_reference_number : Option String
  transaction_date : Option String
  reason_message : Option String
  other_details : Option String
  deriving Repr, DecidableEq

/-- The columns of `PhonePePaymentLog` (src/apps/payments/models.py) that the
reconciler reads or writes. -/
structure PhonePeLog where
  merchant_order_id : String
  payment_status : String
  phonepe_payment_details : Option (List String)
  deriving Repr, DecidableEq

/-- The columns of `Donation` (src/apps/donation/models.py) that the
reconciler reads or writes. -/
structure Donation where
  order_id : String
  status : String
  email : String
  deriving Repr, DecidableEq

/-- The database state visible to the payment service: the three tables the
reconciliation paths touch. -/
structure DB where
  sbiLogs : List SbiePayLog
  phonepeLogs : List PhonePeLog
  donations : List Donation
  deriving Repr, DecidableEq

/-- The error raised by the service, `InvalidRequestException`
(core/exception/request.py). -/
inductive SvcError where
  | invalidRequest (msg : String)
  deriving Repr, DecidableEq

/-- SELECT of a SbiePay payment log by merchant order id. -/
def findSbiLog (db : DB) (orderId : String) : Option SbiePayLog :=
  db.sbiLogs.find? (fun l => l.merchant_order_id == orderId)

/-- SELECT of a PhonePe payment log by merchant order id. -/
def findPhonepeLog (db : DB) (orderId : String) : Option PhonePeLog :=
  db.phonepeLogs.find? (fun l => l.merchant_order_id == orderId)

/-- SELECT of a donation by order id. -/
def findDonation (db : DB) (orderId : String) : Option Donation :=
  db.donations.find? (fun d => d.order_id == orderId)

/-- Committing a mutated SbiePay payment log row. -/
def setSbiLog (db : DB) (log : SbiePayLog) : DB :=
  { db with
    sbiLogs := db.sbiLogs.map fun l =>
      if l.merchant_order_id == log.merchant_order_id then log else l }

/-- Committing a mutated PhonePe payment log row. -/
def setPhonepeLog (db : DB) (log : PhonePeLog) : DB :=
  { db with
    phonepeLogs := db.phonepeLogs.map fun l =>
      if l.merchant_order_id == log.merchant_order_id then log else l }

/-- Committing a mutated donation row. -/
def setDonation (db : DB) (d : Donation) : DB :=
  { db with
    donations := db.donations.map fun x =>
      if x.order_id == d.order_id then d else x }

/-- The raw-to-canonical status mapping of `handle_sbiepay_response` and
`verify_sbiepay_transaction` (src/apps/payments/service.py lines 210-216 and
272-278): "SUCCESS" maps to the success value, "FAILED" and "FAIL" to the
failed value, anything else to pending. -/
def mapSbiTransactionStatus (raw : String) : String :=
  if raw = "SUCCESS" then SbiePayPaymentStatus.SUCCESS
  else if raw = "FAILED" ∨ raw = "FAIL" then SbiePayPaymentStatus.FAILED
  else SbiePayPaymentStatus.PENDING

/-- The donation status derivation inside `_update_donation_status`
(src/apps/payments/service.py lines 340-351). -/
def deriveDonationStatus (paymentStatus : String) : String :=
  if paymentStatus = PhonePePaymentStatus.COMPLETED ∨
     paymentStatus = SbiePayPaymentStatus.SUCCESS then
    DonationStatus.COMPLETED
  else if paymentStatus = PhonePePaymentStatus.FAILED ∨
          paymentStatus = SbiePayPaymentStatus.FAILED then
    DonationStatus.PAYMENT_FAILED
  else DonationStatus.PENDING

/-- Translation of `_update_donation_status` (service.py lines 331-356):
look the donation up by order id; when present, overwrite its status with
the value derived from the payment status and commit. -/
def update_donation_status (db : DB) (orderId : String) (paymentStatus : String) :
    DB × Option Donation :=
  match findDonation db orderId with
  | none => (db, none)
  | some donation =>
      let donation' := { donation with status := deriveDonationStatus paymentStatus }
      (setDonation db donation', some donation')

/-- Translation of `_send_donation_thank_you_email_safe` (service.py lines
358-392): a dispatch is attempted only when the donation has a (truthy)
email, and every failure of the dispatch is swallowed.  The result is the
list of order ids for which a thank-you dispatch was attempted. -/
def sendThankYouSafe (donation : Donation) : List String :=
  if donation.email = "" then [] else [donation.order_id]

/-- The decrypted SbiePay callback fields the service reads, i.e. the
relevant part of the client's parsed response with string values. -/
structure ParsedSbiResponse where
  merchant_order_number : String
  sbiepay_ref_id : String
  transaction_status : String
  pay_mode : String
  reason_message : String
  other_details : String
  bank_code : String
  bank_reference_number : String
  transaction_date : String
  deriving Repr, DecidableEq

/-- The dictionary `handle_payment_response` hands to the service: the
success case with parsed data and the raw decrypted string, or the error
case. -/
inductive ClientResult where
  | success (data : ParsedSbiResponse) (rawData : String)
  | errorResult (message : String)
  deriving Repr, DecidableEq

/-- The field overwrites `handle_sbiepay_response` performs on the found
payment log (service.py lines 200-216). -/
def respLogUpdate (log : SbiePayLog) (parsed : ParsedSbiResponse)
    (rawData : String) : SbiePayLog :=
  { log with
    sbiepay_ref_id := some parsed.sbiepay_ref_id
    sbiepay_response_data := some rawData
    pay_mode := some parsed.pay_mode
    reason_message := some parsed.reason_message
    other_details := some parsed.other_details
    bank_code := some parsed.bank_code
    bank_reference_number := some parsed.bank_reference_number
    transaction_date := some parsed.transaction_date
    payment_status := mapSbiTransactionStatus parsed.transaction_status }

/-- Translation of `handle_sbiepay_response` (service.py lines 167-238).
Returns the final database state together with either the raised
`InvalidRequestException` or the final payment log and the list of
thank-you dispatches attempted. -/
def handle_sbiepay_response (db : DB) (resp : ClientResult)
    (orderIdArg : Option String) :
    DB × Except SvcError (SbiePayLog × List String) :=
  match resp with
  | .errorResult msg =>
      (db, .error (.invalidRequest ("Failed to process payment response: " ++ msg)))
  | .success parsed rawData =>
      let found :=
        match findSbiLog db parsed.merchant_order_number with
        | some l => some l
        | none =>
            match orderIdArg with
            | some oid => findSbiLog db oid
            | none => none
      match found with
      | none => (db, .error (.invalidRequest "Payment log not found"))
      | some paymentLog =>
          let previousStatus := paymentLog.payment_status
          let log' := respLogUpdate paymentLog parsed rawData
          let db1 := setSbiLog db log'
          let upd := update_donation_status db1 log'.merchant_order_id log'.payment_status
          let emails :=
            match upd.2 with
            | some donation =>
                if previousStatus ≠ SbiePayPaymentStatus.SUCCESS ∧
                   log'.payment_status = SbiePayPaymentStatus.SUCCESS then
                  sendThankYouSafe donation
                else []
            | none => []
          (upd.1, .ok (log', emails))

/-- The parsed double-verification reply fields the service reads
(service.py lines 261-278). -/
structure ParsedVerification where
  atrn : String
  transaction_status : String
  bank_code : String
  bank_reference_number : String
  transaction_date : String
  pay_mode : String
  deriving Repr, DecidableEq

/-- The `VerifyTransactionResponse` the SbiePay client hands to the service:
status "success" with the parsed reply and raw body, or status "error". -/
inductive VerifyClientResult where
  | success (parsed : ParsedVerification) (rawResponse : String)
  | errorResult (message : String)
  deriving Repr, DecidableEq

/-- The field overwrites `verify_sbiepay_transaction` performs on the found
payment log (service.py lines 264-278). -/
def verifyLogUpdate (log : SbiePayLog) (parsed : ParsedVerification)
    (rawResponse : String) : SbiePayLog :=
  { log with
    double_verification_data := some rawResponse
    sbiepay_ref_id := some parsed.atrn
    bank_code := some parsed.bank_code
    bank_reference_number := some parsed.bank_reference_number
    transaction_date := some parsed.transaction_date
    pay_mode := some parsed.pay_mode
    payment_status := mapSbiTransactionStatus parsed.transaction_status }

/-- Translation of `verify_sbiepay_transaction` (service.py lines 240-296).
The double-verification HTTP exchange is abstracted as the reply parameter;
on a non-success reply the log is returned unchanged. -/
def verify_sbiepay_transaction (db : DB) (orderId : String)
    (verResp : VerifyClientResult) :
    DB × Except SvcError (SbiePayLog × List String) :=
  match findSbiLog db orderId with
  | none => (db, .error (.invalidRequest "Payment information not found"))
  | some paymentLog =>
      let previousStatus := paymentLog.payment_status
      match verResp with
      | .errorResult _ => (db, .ok (paymentLog, []))
      | .success parsed rawResponse =>
          let log' := verifyLogUpdate paymentLog parsed rawResponse
          let db1 := setSbiLog db log'
          let upd := update_donation_status db1 orderId log'.payment_status
          let emails :=
            match upd.2 with
            | some donation =>
                if previousStatus ≠ SbiePayPaymentStatus.SUCCESS ∧
                   log'.payment_status = SbiePayPaymentStatus.SUCCESS then
                  sendThankYouSafe donation
                else []
            | none => []
          (upd.1, .ok (log', emails))

/-- The PhonePe order state enum (phonepe/client.py lines 15-19). -/
inductive PhonePeState where
  | PENDING
  | COMPLETED
  | FAILED
  | EXPIRED
  deriving Repr, DecidableEq

/-- The string value of a PhonePe state (it is a str-valued enum, so both
the `.value` access and the direct comparison with a string literal in the
service compare this string). -/
def PhonePeState.value : PhonePeState → String
  | .PENDING => "PENDING"
  | .COMPLETED => "COMPLETED"
  | .FAILED => "FAILED"
  | .EXPIRED => "EXPIRED"

/-- The `OrderStatusResponse` fields `get_phonepe_payment_status` reads. -/
structure OrderStatusResponse where
  state : PhonePeState
  payment_details : Option (List String)
  deriving Repr, DecidableEq

/-- The status mapping of `get_phonepe_payment_status` (service.py lines
87-94): COMPLETED and FAILED map to their log values, anything else
(PENDING, EXPIRED) to pending. -/
def mapPhonepeState (st : PhonePeState) : String :=
  if st.value = "COMPLETED" then PhonePePaymentStatus.COMPLETED
  else if st.value = "FAILED" then PhonePePaymentStatus.FAILED
  else PhonePePaymentStatus.PENDING

/-- The payment-details overwrite of `get_phonepe_payment_status`
(service.py lines 96-97): `if response.payment_details` is truthiness, so
None and the empty list leave the stored details unchanged. -/
def detailsUpdate (old new? : Option (List String)) : Option (List String) :=
  match new? with
  | some ds => if ds = [] then old else some ds
  | none => old

/-- The log overwrite of `get_phonepe_payment_status` (service.py lines
87-97). -/
def phonepeLogUpdate (log : PhonePeLog) (resp : OrderStatusResponse) : PhonePeLog :=
  { log with
    payment_status := mapPhonepeState resp.state
    phonepe_payment_details := detailsUpdate log.phonepe_payment_details resp.payment_details }

/-- The inline donation-status derivation of `get_phonepe_payment_status`
(service.py lines 109-119): completed maps to completed, failed to
payment-failed, anything else to pending. -/
def phonepeDonationStatus (paymentStatus : String) : String :=
  if paymentStatus = PhonePePaymentStatus.COMPLETED then DonationStatus.COMPLETED
  else if paymentStatus = PhonePePaymentStatus.FAILED then
    DonationStatus.PAYMENT_FAILED
  else DonationStatus.PENDING

/-- Translation of `get_phonepe_payment_status` (service.py lines 76-132).
The gateway poll is abstracted as the response parameter.  The donation
status is updated inline (not via `_update_donation_status`), and the email
gate compares the donation's previous status with its new one. -/
def get_phonepe_payment_status (db : DB) (orderId : String)
    (resp : OrderStatusResponse) :
    DB × Except SvcError (PhonePeLog × List String) :=
  match findPhonepeLog db orderId with
  | none => (db, .error (.invalidRequest "Payment information not found"))
  | some log =>
      let log' := phonepeLogUpdate log resp
      let db1 := setPhonepeLog db log'
      match findDonation db1 orderId with
      | none => (db1, .ok (log', []))
      | some donation =>
          let previousStatus := donation.status
          let donation' :=
            { donation with status := phonepeDonationStatus log'.payment_status }
          let db2 := setDonation db1 donation'
          let emails :=
            if previousStatus ≠ DonationStatus.COMPLETED ∧
               donation'.status = DonationStatus.COMPLETED then
              sendThankYouSafe donation'
            else []
          (db2, .ok (log', emails))

theorem find?_map_replace {α : Type} (p : α → Bool) (v : α) (l : List α)
    (hv : p v = true) (h : (l.find? p).isSome) :
    (l.map fun x => if p x then v else x).find? p = some v := by
  induction l with
  | nil => simp [List.find?] at h
  | cons a t ih =>
      by_cases ha : p a = true
      · rw [List.map_cons, if_pos ha, List.find?_cons_of_pos _ hv]
      · rw [List.find?_cons_of_neg _ ha] at h
        rw [List.map_cons, if_neg ha, List.find?_cons_of_neg _ ha]
        exact ih h

theorem map_replace_idem {α : Type} (p : α → Bool) (v : α) (l : List α) :
    ((l.map fun x => if p x then v else x).map fun x => if p x then v else x)
      = l.map fun x => if p x then v else x := by
  rw [List.map_map]
  refine List.map_congr_left fun x _ => ?_
  by_cases hx : p x = true
  · simp only [Function.comp_apply, if_pos hx, ite_self]
  · simp only [Function.comp_apply, if_neg hx]

theorem find?_map_replace_isSome {α : Type} (p : α → Bool) (v : α) (l : List α)
    (hv : p v = true) (h : (l.find? p).isSome) :
    (l.map fun x => if p x then v else x).find? p = some v :=
  find?_map_replace p v l hv h

theorem findSbiLog_merchant {db : DB} {oid : String} {l : SbiePayLog}
    (h : findSbiLog db oid = some l) : l.merchant_order_id = oid := by
  simpa using List.find?_some h

theorem findPhonepeLog_merchant {db : DB} {oid : String} {l : PhonePeLog}
    (h : findPhonepeLog db oid = some l) : l.merchant_order_id = oid := by
  simpa using List.find?_some h

theorem findDonation_order {db : DB} {oid : String} {d : Donation}
    (h : findDonation db oid = some d) : d.order_id = oid := by
  simpa using List.find?_some h

theorem findSbiLog_setSbiLog (db : DB) (l : SbiePayLog) (oid : String)
    (h : (findSbiLog db oid).isSome) (hid : l.merchant_order_id = oid) :
    findSbiLog (setSbiLog db l) oid = some l := by
  subst hid
  exact find?_map_replace _ _ _ (by simp) h

theorem findPhonepeLog_setPhonepeLog (db : DB) (l : PhonePeLog) (oid : String)
    (h : (findPhonepeLog db oid).isSome) (hid : l.merchant_order_id = oid) :
    findPhonepeLog (setPhonepeLog db l) oid = some l := by
  subst hid
  exact find?_map_replace _ _ _ (by simp) h

theorem findDonation_setDonation (db : DB) (d : Donation) (oid : String)
    (h : (findDonation db oid).isSome) (hid : d.order_id = oid) :
    findDonation (setDonation db d) oid = some d := by
  subst hid
  exact find?_map_replace _ _ _ (by simp) h

theorem setSbiLog_idem (db : DB) (l : SbiePayLog) :
    setSbiLog (setSbiLog db l) l = setSbiLog db l := by
  cases db
  simp only [setSbiLog]
  rw [map_replace_idem]

theorem setPhonepeLog_idem (db : DB) (l : PhonePeLog) :
    setPhonepeLog (setPhonepeLog db l) l = setPhonepeLog db l := by
  cases db
  simp only [setPhonepeLog]
  rw [map_replace_idem]

theorem setDonation_idem (db : DB) (d : Donation) :
    setDonation (setDonation db d) d = setDonation db d := by
  cases db
  simp only [setDonation]
  rw [map_replace_idem]

theorem respLogUpdate_idem (log : SbiePayLog) (parsed : ParsedSbiResponse)
    (rawData : String) :
    respLogUpdate (respLogUpdate log parsed rawData) parsed rawData =
      respLogUpdate log parsed rawData := rfl

theorem detailsUpdate_idem (o n : Option (List String)) :
    detailsUpdate (detailsUpdate o n) n = detailsUpdate o n := by
  cases n with
  | none => rfl
  | some ds =>
      by_cases h : ds = []
      · simp [detailsUpdate, h]
      · simp [detailsUpdate, h]

theorem phonepeLogUpdate_idem (log : PhonePeLog) (resp : OrderStatusResponse) :
    phonepeLogUpdate (phonepeLogUpdate log resp) resp = phonepeLogUpdate log resp := by
  simp only [phonepeLogUpdate]
  rw [detailsUpdate_idem]

/-- Behaviour of `handle_sbiepay_response` on a successfully decoded
response whose merchant order number has a payment log and a donation: all
response fields and the mapped status are written to the log, the donation
status is overwritten with the derived value, and a thank-you dispatch is
attempted exactly when the stored status was not yet success, the new one
is, and the donation has an email. -/
theorem handle_success_spec (db : DB) (parsed : ParsedSbiResponse)
    (rawData : String) (log : SbiePayLog) (d : Donation)
    (hlog : findSbiLog db parsed.merchant_order_number = some log)
    (hdon : findDonation db log.merchant_order_id = some d) :
    handle_sbiepay_response db (.success parsed rawData) none =
      (setDonation (setSbiLog db (respLogUpdate log parsed rawData))
         { d with status :=
             deriveDonationStatus (mapSbiTransactionStatus parsed.transaction_status) },
       .ok (respLogUpdate log parsed rawData,
         if log.payment_status ≠ SbiePayPaymentStatus.SUCCESS ∧
            mapSbiTransactionStatus parsed.transaction_status =
              SbiePayPaymentStatus.SUCCESS then
           sendThankYouSafe
             { d with status :=
                 deriveDonationStatus (mapSbiTransactionStatus parsed.transaction_status) }
         else [])) := by
  have hdon' : findDonation (setSbiLog db (respLogUpdate log parsed rawData))
      ((respLogUpdate log parsed rawData).merchant_order_id) = some d := hdon
  simp only [handle_sbiepay_response, hlog, update_donation_status, hdon']
  rfl

/-- Behaviour of `get_phonepe_payment_status` when the order has a PhonePe
log and a donation. -/
theorem phonepe_status_spec (db : DB) (orderId : String)
    (resp : OrderStatusResponse) (log : PhonePeLog) (d : Donation)
    (hlog : findPhonepeLog db orderId = some log)
    (hdon : findDonation db orderId = some d) :
    get_phonepe_payment_status db orderId resp =
      (setDonation (setPhonepeLog db (phonepeLogUpdate log resp))
         { d with status := phonepeDonationStatus (mapPhonepeState resp.state) },
       .ok (phonepeLogUpdate log resp,
         if d.status ≠ DonationStatus.COMPLETED ∧
            phonepeDonationStatus (mapPhonepeState resp.state) =
              DonationStatus.COMPLETED then
           sendThankYouSafe
             { d with status := phonepeDonationStatus (mapPhonepeState resp.state) }
         else [])) := by
  have hdon' : findDonation (setPhonepeLog db (phonepeLogUpdate log resp)) orderId =
      some d := hdon
  simp only [get_phonepe_payment_status, hlog, hdon']
  rfl

end PaymentService

section Claims

open SbiePayClient PaymentService PhonePeClient

/-- C3: for every well-formed field tuple (each field free of the pipe
separator and UTF-8 decodable) and every 16-byte IV, the decryption of the
encryption of the joined fields returns the joined fields, and splitting the
join recovers the fields, so decode of encode is the identity. -/
theorem C3_codec_roundtrip (P : Primitives) (iv : Bytes) (fields : List Bytes)
    (hiv : iv.length = 16)
    (hne : fields ≠ [])
    (hpipe : ∀ f ∈ fields, pipeByte ∉ f)
    (hutf8 : P.utf8decode (joinFields fields) = Except.ok (joinFields fields)) :
    decrypt P (encrypt P "SHA256" iv (joinFields fields)) =
      Except.ok (joinFields fields) ∧
    splitFields (joinFields fields) = fields :=
  ⟨decrypt_encrypt P "SHA256" iv (joinFields fields) hiv hutf8,
   splitFields_joinFields fields hne hpipe⟩

/-- Witness for C3 at a concrete two-field tuple and the identity
primitives. -/
theorem C3_codec_roundtrip_witness :
    decrypt idPrims (encrypt idPrims "SHA256" (List.replicate 16 0)
        (joinFields [[72], [75]])) = Except.ok (joinFields [[72], [75]]) ∧
    splitFields (joinFields [[72], [75]]) = [[72], [75]] :=
  C3_codec_roundtrip idPrims (List.replicate 16 0) [[72], [75]]
    (by decide) (by decide) (by decide) rfl

/-- C4 counterexample: plaintexts whose trailing bytes are not a valid
PKCS#7 pad are not rejected.  A last byte of 0 yields the empty byte string
(Python slice from 0 to -0), a pad length larger than the plaintext yields
the empty byte string (clamped slice), mismatching fill bytes are stripped
silently, and a full decryption of such a plaintext succeeds with no
`DecryptionError` — and the three invalid pads are not treated uniformly. -/
theorem C4_counterexample :
    unpad [65, 66, 0] = Except.ok [] ∧
    unpad [65, 200] = Except.ok [] ∧
    unpad [1, 2, 3, 2] = Except.ok [1, 2] ∧
    decrypt idPrims (List.replicate 16 0 ++ [65, 66, 0]) = Except.ok [] :=
  ⟨rfl, rfl, rfl, rfl⟩

/-- C4 amended: `_unpad` performs no PKCS#7 validation at all.  On every
nonempty input it succeeds (dropping as many trailing bytes as the last
byte's value, everything when that value is 0), so `_decrypt` raises its
`DecryptionError` only when base64 decoding, the cipher call, indexing an
empty plaintext, or UTF-8 decoding fails — never because of an invalid
pad. -/
theorem C4_unpad_never_validates :
    (∀ b : Bytes, b ≠ [] → ∃ r, unpad b = Except.ok r) ∧
    (∀ b : Bytes, b.getLast? = some 0 → unpad b = Except.ok []) := by
  constructor
  · intro b hb
    have hsome : b.getLast?.isSome := List.getLast?_isSome.mpr hb
    obtain ⟨lastByte, hlast⟩ := Option.isSome_iff_exists.mp hsome
    by_cases h0 : lastByte = 0
    · exact ⟨[], by simp [unpad, hlast, h0]⟩
    · exact ⟨b.take (b.length - lastByte), by simp [unpad, hlast, h0]⟩
  · intro b hlast
    simp [unpad, hlast]

/-- Witness for C4's amended statement at the one-byte plaintext 0. -/
theorem C4_unpad_never_validates_witness :
    (∃ r, unpad [0] = Except.ok r) ∧ unpad [0] = Except.ok [] :=
  ⟨C4_unpad_never_validates.1 [0] (by decide),
   C4_unpad_never_validates.2 [0] rfl⟩

/-- C5: on every input, `_decrypt` and `handle_payment_response` fail only
with the typed `SbiePayError`: any error outcome of either is a
`sbiePayErr`, so a webhook handler can catch exactly the typed errors. -/
theorem C5_typed_errors (P : Primitives) (x : Bytes) :
    (∀ e, decrypt P x = Except.error e → ∃ m, e = PyError.sbiePayErr m) ∧
    (∀ e, handle_payment_response P x = Except.error e →
      ∃ m, e = PyError.sbiePayErr m) := by
  constructor
  · intro e he
    rw [decrypt] at he
    cases hb : decryptBody P x with
    | ok s => rw [hb] at he; cases he
    | error pe =>
        rw [hb] at he
        exact ⟨"Decryption failed during response handling.",
          (Except.error.inj he).symm⟩
  · intro e he
    rw [handle_payment_response] at he
    cases hb : handleBody P x with
    | ok r => rw [hb] at he; cases he
    | error pe =>
        cases pe with
        | sbiePayErr m => rw [hb] at he; cases he
        | indexErr =>
            rw [hb] at he
            exact ⟨"Response handling failed", (Except.error.inj he).symm⟩
        | valueErr =>
            rw [hb] at he
            exact ⟨"Response handling failed", (Except.error.inj he).symm⟩
        | unicodeErr =>
            rw [hb] at he
            exact ⟨"Response handling failed", (Except.error.inj he).symm⟩
        | binasciiErr =>
            rw [hb] at he
            exact ⟨"Response handling failed", (Except.error.inj he).symm⟩

/-- Witness for C5 at a garbage input (three bytes, not a valid packet). -/
theorem C5_typed_errors_witness :
    ∃ m, PyError.sbiePayErr "Decryption failed during response handling." =
      PyError.sbiePayErr m :=
  (C5_typed_errors idPrims [1, 2, 3]).1
    (PyError.sbiePayErr "Decryption failed during response handling.") rfl

/-- C6: the raw SbiePay transaction status maps to the canonical payment
status as SUCCESS to success, FAILED and FAIL to failed, anything else to
pending; the donation status derives from the payment status as
success/completed to completed, failed to payment-failed, anything else to
pending. -/
theorem C6_status_mapping :
    mapSbiTransactionStatus "SUCCESS" = SbiePayPaymentStatus.SUCCESS ∧
    mapSbiTransactionStatus "FAILED" = SbiePayPaymentStatus.FAILED ∧
    mapSbiTransactionStatus "FAIL" = SbiePayPaymentStatus.FAILED ∧
    (∀ raw, raw ≠ "SUCCESS" → raw ≠ "FAILED" → raw ≠ "FAIL" →
      mapSbiTransactionStatus raw = SbiePayPaymentStatus.PENDING) ∧
    deriveDonationStatus SbiePayPaymentStatus.SUCCESS = DonationStatus.COMPLETED ∧
    deriveDonationStatus PhonePePaymentStatus.COMPLETED = DonationStatus.COMPLETED ∧
    deriveDonationStatus SbiePayPaymentStatus.FAILED = DonationStatus.PAYMENT_FAILED ∧
    (∀ s, s ≠ PhonePePaymentStatus.COMPLETED → s ≠ SbiePayPaymentStatus.SUCCESS →
      s ≠ PhonePePaymentStatus.FAILED →
      deriveDonationStatus s = DonationStatus.PENDING) := by
  refine ⟨by decide, by decide, by decide, ?_, by decide, by decide, by decide, ?_⟩
  · intro raw h1 h2 h3
    rw [mapSbiTransactionStatus, if_neg h1, if_neg (by tauto)]
  · intro s h1 h2 h3
    have h4 : s ≠ SbiePayPaymentStatus.FAILED := h3
    rw [deriveDonationStatus, if_neg (by tauto), if_neg (by tauto)]

/-- Witness for C6 at an unmapped raw status and an unmapped payment
status. -/
theorem C6_status_mapping_witness :
    mapSbiTransactionStatus "BOOKED" = SbiePayPaymentStatus.PENDING ∧
    deriveDonationStatus SbiePayPaymentStatus.EXPIRED = DonationStatus.PENDING :=
  ⟨C6_status_mapping.2.2.2.1 "BOOKED" (by decide) (by decide) (by decide),
   C6_status_mapping.2.2.2.2.2.2.2 SbiePayPaymentStatus.EXPIRED
     (by decide) (by decide) (by decide)⟩

/-- C7: with the canonical major-unit amount 5000.00, the PhonePe
create-payment request body carries 500000 — the amount times 100, an
integer number of minor units — while the SbiePay transaction packet
carries the amount rendered unmodified as its fifth field (Python renders
the integral float 5000.00 as "5000.0"), whose decimal value is exactly
5000. -/
theorem C7_amount_units (merchantId successUrl failUrl aggregatorId
    merchantOrderId customerId : String) :
    createPaymentRequestAmount 5000 = 500000 ∧
    (createPaymentRequestAmount 5000).den = 1 ∧
    pyFloatStr 5000 = "5000.0" ∧
    (transactionPacketFields merchantId successUrl failUrl aggregatorId
        (pyFloatStr 5000) merchantOrderId customerId)[4]? = some (pyFloatStr 5000) ∧
    decimalValue? (pyFloatStr 5000) = some 5000 := by
  refine ⟨by norm_num [createPaymentRequestAmount], ?_, ?_, rfl, ?_⟩
  · norm_num [createPaymentRequestAmount]
  · rfl
  · have hval : decimalValue? "5000.0" =
        some (((5000 : ℕ) : ℚ) + ((0 : ℕ) : ℚ) / (10 : ℚ) ^ (1 : ℕ)) := rfl
    rw [show pyFloatStr 5000 = "5000.0" from rfl, hval]
    simp only [Option.some.injEq]
    push_cast
    norm_num

/-- C8: the cached bearer token is valid exactly when a (truthy) token is
present and the current epoch-millisecond time is strictly below the cached
expiry; while valid, `ensureToken` calls return the cache with zero auth
HTTP calls — twice in a row — and a call while invalid (after expiry)
issues exactly one token fetch. -/
theorem C8_token_reuse (st : TokenState) (now now2 : Int) (f1 f2 : String × Int) :
    (is_token_valid st now = true ↔
      ∃ t, st.auth_token = some t ∧ t ≠ "" ∧ now < st.auth_token_expiry) ∧
    (is_token_valid st now = true →
      ensure_auth_token st now f1 = (st, 0) ∧
      (is_token_valid st now2 = true →
        ensure_auth_token (ensure_auth_token st now f1).1 now2 f2 = (st, 0))) ∧
    (is_token_valid st now = false → (ensure_auth_token st now f1).2 = 1) := by
  refine ⟨?_, ?_, ?_⟩
  · cases h : st.auth_token with
    | none => simp [is_token_valid, h]
    | some t =>
        by_cases ht : t = ""
        · simp [is_token_valid, h, ht]
        · simp [is_token_valid, h, ht]
  · intro hv
    have h1 : ensure_auth_token st now f1 = (st, 0) := by
      rw [ensure_auth_token, if_pos hv]
    refine ⟨h1, fun hv2 => ?_⟩
    rw [h1]
    rw [ensure_auth_token, if_pos hv2]
  · intro hv
    rw [ensure_auth_token, if_neg (by simp [hv])]

/-- Witness for C8 at a concrete cached token, two instants inside the
expiry window and one after it. -/
theorem C8_token_reuse_witness :
    (is_token_valid ⟨some "tok", 100⟩ 50 = true ↔
      ∃ t, (TokenState.mk (some "tok") 100).auth_token = some t ∧ t ≠ "" ∧
        (50 : Int) < (TokenState.mk (some "tok") 100).auth_token_expiry) ∧
    (ensure_auth_token ⟨some "tok", 100⟩ 50 ("t2", 0) = (⟨some "tok", 100⟩, 0) ∧
      ensure_auth_token (ensure_auth_token ⟨some "tok", 100⟩ 50 ("t2", 0)).1 60
          ("t3", 0) = (⟨some "tok", 100⟩, 0)) ∧
    (ensure_auth_token ⟨some "tok", 100⟩ 100 ("t4", 0)).2 = 1 := by
  have h := C8_token_reuse ⟨some "tok", 100⟩ 50 60 ("t2", 0) ("t3", 0)
  have h2 := (h.2.1 (by decide))
  exact ⟨h.1, ⟨h2.1, h2.2 (by decide)⟩,
    (C8_token_reuse ⟨some "tok", 100⟩ 100 60 ("t4", 0) ("t3", 0)).2.2 (by decide)⟩

/-- C9: a reconciliation call for an order id with no payment log raises the
not-found `InvalidRequestException` and leaves the database state completely
unchanged — no log is created and no donation is touched — for both the
callback handler and the double-verification path. -/
theorem C9_not_found (db : DB) (parsed : ParsedSbiResponse) (rawData : String)
    (orderIdArg : Option String) (oid2 : String) (vresp : VerifyClientResult)
    (h1 : findSbiLog db parsed.merchant_order_number = none)
    (h2 : ∀ o, orderIdArg = some o → findSbiLog db o = none)
    (h3 : findSbiLog db oid2 = none) :
    handle_sbiepay_response db (.success parsed rawData) orderIdArg =
      (db, .error (.invalidRequest "Payment log not found")) ∧
    verify_sbiepay_transaction db oid2 vresp =
      (db, .error (.invalidRequest "Payment information not found")) := by
  constructor
  · cases orderIdArg with
    | none => simp [handle_sbiepay_response, h1]
    | some o => simp [handle_sbiepay_response, h1, h2 o rfl]
  · simp [verify_sbiepay_transaction, h3]

/-- A concrete decoded callback used by witnesses and counterexamples. -/
def samplePendingParsed : ParsedSbiResponse :=
  { merchant_order_number := "SK-1001"
    sbiepay_ref_id := "ATRN-77"
    transaction_status := "PENDING"
    pay_mode := "NB"
    reason_message := ""
    other_details := ""
    bank_code := "SBI"
    bank_reference_number := "REF55"
    transaction_date := "2024-01-01" }

/-- Witness for C9 on the empty database. -/
theorem C9_not_found_witness :
    handle_sbiepay_response ⟨[], [], []⟩ (.success samplePendingParsed "raw")
        (some "SK-X") = (⟨[], [], []⟩, .error (.invalidRequest "Payment log not found")) ∧
    verify_sbiepay_transaction ⟨[], [], []⟩ "SK-Y" (.errorResult "missing") =
      (⟨[], [], []⟩, .error (.invalidRequest "Payment information not found")) :=
  C9_not_found ⟨[], [], []⟩ samplePendingParsed "raw" (some "SK-X") "SK-Y"
    (.errorResult "missing") rfl (fun o ho => by cases ho; rfl) rfl

/-- A stored SbiePay payment log already at the terminal success status. -/
def sampleLogSuccess : SbiePayLog :=
  { merchant_order_id := "SK-1001"
    sbiepay_ref_id := some "ATRN-77"
    payment_status := SbiePayPaymentStatus.SUCCESS
    sbiepay_response_data := none
    double_verification_data := none
    pay_mode := some "NB"
    bank_code := some "SBI"
    bank_reference_number := some "REF55"
    transaction_date := some "2024-01-01"
    reason_message := none
    other_details := none }

/-- The matching donation, already Completed. -/
def sampleDonationCompleted : Donation :=
  { order_id := "SK-1001"
    status := DonationStatus.COMPLETED
    email := "donor@example.org" }

/-- A database in the terminal success state for order SK-1001. -/
def dbTerminal : DB :=
  { sbiLogs := [sampleLogSuccess]
    phonepeLogs := []
    donations := [sampleDonationCompleted] }

/-- C1 counterexample: from the terminal success state (payment log at
success, donation Completed), a reconciliation call that receives a Pending
gateway report moves the payment log back to pending and the donation back
to pending — the status does regress out of the terminal success state. -/
theorem C1_counterexample :
    sampleLogSuccess.payment_status = SbiePayPaymentStatus.SUCCESS ∧
    sampleDonationCompleted.status = DonationStatus.COMPLETED ∧
    samplePendingParsed.transaction_status = "PENDING" ∧
    handle_sbiepay_response dbTerminal (.success samplePendingParsed "raw") none =
      ({ sbiLogs := [respLogUpdate sampleLogSuccess samplePendingParsed "raw"]
         phonepeLogs := []
         donations := [{ sampleDonationCompleted with status := DonationStatus.PENDING }] },
       .ok (respLogUpdate sampleLogSuccess samplePendingParsed "raw", [])) ∧
    (respLogUpdate sampleLogSuccess samplePendingParsed "raw").payment_status =
      SbiePayPaymentStatus.PENDING :=
  ⟨rfl, rfl, rfl, rfl, rfl⟩

/-- C1 amended: reconciliation has no terminal-success guard.  Every call
overwrites the payment log's status with the status mapped from the
incoming gateway report and rewrites the donation's status with the value
derived from it, whatever the stored statuses were — so a Pending or
Failed report arriving after success regresses both. -/
theorem C1_status_follows_latest_report (db : DB) (parsed : ParsedSbiResponse)
    (rawData : String) (log : SbiePayLog) (d : Donation)
    (hlog : findSbiLog db parsed.merchant_order_number = some log)
    (hdon : findDonation db log.merchant_order_id = some d) :
    ∃ db' emails,
      handle_sbiepay_response db (.success parsed rawData) none =
        (db', .ok (respLogUpdate log parsed rawData, emails)) ∧
      (respLogUpdate log parsed rawData).payment_status =
        mapSbiTransactionStatus parsed.transaction_status ∧
      findDonation db' log.merchant_order_id =
        some { d with
          status := deriveDonationStatus (mapSbiTransactionStatus parsed.transaction_status) } := by
  refine ⟨_, _, handle_success_spec db parsed rawData log d hlog hdon, rfl, ?_⟩
  have hdord : d.order_id = log.merchant_order_id := findDonation_order hdon
  have hsome : (findDonation (setSbiLog db (respLogUpdate log parsed rawData))
      log.merchant_order_id).isSome := by
    have : findDonation (setSbiLog db (respLogUpdate log parsed rawData))
        log.merchant_order_id = some d := hdon
    rw [this]
    rfl
  exact findDonation_setDonation _ _ _ hsome hdord

/-- Witness for C1's amended statement at the terminal success state and a
Pending report: the stored success is overwritten. -/
theorem C1_status_follows_latest_report_witness :
    ∃ db' emails,
      handle_sbiepay_response dbTerminal (.success samplePendingParsed "raw") none =
        (db', .ok (respLogUpdate sampleLogSuccess samplePendingParsed "raw", emails)) ∧
      (respLogUpdate sampleLogSuccess samplePendingParsed "raw").payment_status =
        mapSbiTransactionStatus samplePendingParsed.transaction_status ∧
      findDonation db' sampleLogSuccess.merchant_order_id =
        some { sampleDonationCompleted with
          status := deriveDonationStatus (mapSbiTransactionStatus samplePendingParsed.transaction_status) } :=
  C1_status_follows_latest_report dbTerminal samplePendingParsed "raw"
    sampleLogSuccess sampleDonationCompleted rfl rfl

/-- C10: the plaintext encrypted for an outbound SbiePay payment is exactly
the fourteen pipe-joined packet fields with no checksum segment: the SHA
digest computed inside the encryption routine has no effect on the output
(any two digest selections produce identical ciphertext), and the
ciphertext is the base64 of the IV followed by the AES encryption of the
padded packet bytes alone. -/
theorem C10_packet_no_checksum (P : Primitives) (iv : Bytes)
    (merchantId successUrl failUrl aggregatorId amountStr merchantOrderId
      customerId : String) (shaType1 shaType2 : String) :
    (∀ m : Bytes, encrypt P shaType1 iv m = encrypt P shaType2 iv m) ∧
    encrypt P "SHA256" iv
        (strBytes (transactionPacket merchantId successUrl failUrl aggregatorId
          amountStr merchantOrderId customerId)) =
      P.b64encode (iv ++ P.aesEnc iv (pad (joinFields
        ((transactionPacketFields merchantId successUrl failUrl aggregatorId
          amountStr merchantOrderId customerId).map strBytes)))) ∧
    (transactionPacketFields merchantId successUrl failUrl aggregatorId
      amountStr merchantOrderId customerId).length = 14 := by
  refine ⟨fun m => rfl, ?_, rfl⟩
  rw [← transactionPacket_eq_joinFields]
  rfl

/-- C2: reconciling the same gateway response twice produces the identical
final database state, and the thank-you notification is dispatched exactly
once, on the first transition into the successful terminal state (gated by
the previous status not yet being success and the new status being
success); the second identical call dispatches nothing.  Stated for both
the SbiePay callback handler and the PhonePe status poll. -/
theorem C2_idempotent_reconciliation
    (db : DB) (parsed : ParsedSbiResponse) (rawData : String)
    (log : SbiePayLog) (d : Donation)
    (hlog : findSbiLog db parsed.merchant_order_number = some log)
    (hdon : findDonation db log.merchant_order_id = some d)
    (hmail : d.email ≠ "")
    (pdb : DB) (oid : String) (resp : OrderStatusResponse)
    (plog : PhonePeLog) (pd : Donation)
    (hplog : findPhonepeLog pdb oid = some plog)
    (hpdon : findDonation pdb oid = some pd)
    (hpmail : pd.email ≠ "") :
    (∃ db1 log1 e1,
      handle_sbiepay_response db (.success parsed rawData) none =
        (db1, .ok (log1, e1)) ∧
      handle_sbiepay_response db1 (.success parsed rawData) none =
        (db1, .ok (log1, [])) ∧
      e1.length =
        (if log.payment_status ≠ SbiePayPaymentStatus.SUCCESS ∧
            mapSbiTransactionStatus parsed.transaction_status =
              SbiePayPaymentStatus.SUCCESS
         then 1 else 0)) ∧
    (∃ pdb1 plog1 pe1,
      get_phonepe_payment_status pdb oid resp = (pdb1, .ok (plog1, pe1)) ∧
      get_phonepe_payment_status pdb1 oid resp = (pdb1, .ok (plog1, [])) ∧
      pe1.length =
        (if pd.status ≠ DonationStatus.COMPLETED ∧
            phonepeDonationStatus (mapPhonepeState resp.state) =
              DonationStatus.COMPLETED
         then 1 else 0)) := by
  constructor
  · have hmer : log.merchant_order_id = parsed.merchant_order_number :=
      findSbiLog_merchant hlog
    have hdord : d.order_id = log.merchant_order_id := findDonation_order hdon
    have hfirst := handle_success_spec db parsed rawData log d hlog hdon
    have hlogsome : (findSbiLog db parsed.merchant_order_number).isSome := by
      rw [hlog]; rfl
    have hlog2 : findSbiLog
        (setDonation (setSbiLog db (respLogUpdate log parsed rawData))
          { d with status := deriveDonationStatus (mapSbiTransactionStatus parsed.transaction_status) })
        parsed.merchant_order_number = some (respLogUpdate log parsed rawData) := by
      show findSbiLog (setSbiLog db (respLogUpdate log parsed rawData))
        parsed.merchant_order_number = some (respLogUpdate log parsed rawData)
      exact findSbiLog_setSbiLog db _ _ hlogsome hmer
    have hdonsome : (findDonation (setSbiLog db (respLogUpdate log parsed rawData))
        log.merchant_order_id).isSome := by
      have hd : findDonation (setSbiLog db (respLogUpdate log parsed rawData))
          log.merchant_order_id = some d := hdon
      rw [hd]; rfl
    have hdon2 : findDonation
        (setDonation (setSbiLog db (respLogUpdate log parsed rawData))
          { d with status := deriveDonationStatus (mapSbiTransactionStatus parsed.transaction_status) })
        ((respLogUpdate log parsed rawData).merchant_order_id) =
        some { d with status := deriveDonationStatus (mapSbiTransactionStatus parsed.transaction_status) } :=
      findDonation_setDonation _ _ _ hdonsome hdord
    have hsecond := handle_success_spec _ parsed rawData
      (respLogUpdate log parsed rawData)
      { d with status := deriveDonationStatus (mapSbiTransactionStatus parsed.transaction_status) } hlog2 hdon2
    refine ⟨_, _, _, hfirst, ?_, ?_⟩
    · rw [hsecond]
      have hdb : setDonation
          (setSbiLog
            (setDonation (setSbiLog db (respLogUpdate log parsed rawData))
              { d with status := deriveDonationStatus (mapSbiTransactionStatus parsed.transaction_status) })
            (respLogUpdate (respLogUpdate log parsed rawData) parsed rawData))
          { { d with status := deriveDonationStatus (mapSbiTransactionStatus parsed.transaction_status) } with
            status := deriveDonationStatus (mapSbiTransactionStatus parsed.transaction_status) } =
          setDonation (setSbiLog db (respLogUpdate log parsed rawData))
            { d with status := deriveDonationStatus (mapSbiTransactionStatus parsed.transaction_status) } := by
        show setDonation
            (setDonation
              (setSbiLog (setSbiLog db (respLogUpdate log parsed rawData))
                (respLogUpdate log parsed rawData))
              { d with status := deriveDonationStatus (mapSbiTransactionStatus parsed.transaction_status) })
            { d with status := deriveDonationStatus (mapSbiTransactionStatus parsed.transaction_status) } = _
        rw [setSbiLog_idem, setDonation_idem]
      rw [hdb]
      have hgate : (if (respLogUpdate log parsed rawData).payment_status ≠
            SbiePayPaymentStatus.SUCCESS ∧
          mapSbiTransactionStatus parsed.transaction_status =
            SbiePayPaymentStatus.SUCCESS then
          sendThankYouSafe
            { { d with status := deriveDonationStatus (mapSbiTransactionStatus parsed.transaction_status) } with
              status := deriveDonationStatus (mapSbiTransactionStatus parsed.transaction_status) }
        else []) = [] := by
        rw [if_neg]
        rintro ⟨h1, h2⟩
        exact h1 h2
      rw [hgate]
      rfl
    · by_cases hc : log.payment_status ≠ SbiePayPaymentStatus.SUCCESS ∧
          mapSbiTransactionStatus parsed.transaction_status =
            SbiePayPaymentStatus.SUCCESS
      · rw [if_pos hc, if_pos hc, sendThankYouSafe, if_neg hmail]
        rfl
      · rw [if_neg hc, if_neg hc]
        rfl
  · have hmer : plog.merchant_order_id = oid := findPhonepeLog_merchant hplog
    have hdord : pd.order_id = oid := findDonation_order hpdon
    have hfirst := phonepe_status_spec pdb oid resp plog pd hplog hpdon
    have hlogsome : (findPhonepeLog pdb oid).isSome := by rw [hplog]; rfl
    have hplog2 : findPhonepeLog
        (setDonation (setPhonepeLog pdb (phonepeLogUpdate plog resp))
          { pd with status := phonepeDonationStatus (mapPhonepeState resp.state) })
        oid = some (phonepeLogUpdate plog resp) := by
      show findPhonepeLog (setPhonepeLog pdb (phonepeLogUpdate plog resp)) oid =
        some (phonepeLogUpdate plog resp)
      exact findPhonepeLog_setPhonepeLog pdb _ _ hlogsome hmer
    have hdonsome : (findDonation (setPhonepeLog pdb (phonepeLogUpdate plog resp))
        oid).isSome := by
      have hd : findDonation (setPhonepeLog pdb (phonepeLogUpdate plog resp)) oid =
          some pd := hpdon
      rw [hd]; rfl
    have hpdon2 : findDonation
        (setDonation (setPhonepeLog pdb (phonepeLogUpdate plog resp))
          { pd with status := phonepeDonationStatus (mapPhonepeState resp.state) })
        oid = some { pd with
          status := phonepeDonationStatus (mapPhonepeState resp.state) } :=
      findDonation_setDonation _ _ _ hdonsome hdord
    have hsecond := phonepe_status_spec _ oid resp (phonepeLogUpdate plog resp)
      { pd with status := phonepeDonationStatus (mapPhonepeState resp.state) }
      hplog2 hpdon2
    rw [phonepeLogUpdate_idem] at hsecond
    refine ⟨_, _, _, hfirst, ?_, ?_⟩
    · rw [hsecond]
      have hdb : setDonation
          (setPhonepeLog
            (setDonation (setPhonepeLog pdb (phonepeLogUpdate plog resp))
              { pd with status := phonepeDonationStatus (mapPhonepeState resp.state) })
            (phonepeLogUpdate plog resp))
          { { pd with status := phonepeDonationStatus (mapPhonepeState resp.state) } with
            status := phonepeDonationStatus (mapPhonepeState resp.state) } =
          setDonation (setPhonepeLog pdb (phonepeLogUpdate plog resp))
            { pd with status := phonepeDonationStatus (mapPhonepeState resp.state) } := by
        show setDonation
            (setDonation
              (setPhonepeLog (setPhonepeLog pdb (phonepeLogUpdate plog resp))
                (phonepeLogUpdate plog resp))
              { pd with status := phonepeDonationStatus (mapPhonepeState resp.state) })
            { pd with status := phonepeDonationStatus (mapPhonepeState resp.state) } = _
        rw [setPhonepeLog_idem, setDonation_idem]
      rw [hdb]
      have hgate : (if ({ pd with
            status := phonepeDonationStatus (mapPhonepeState resp.state) } :
              Donation).status ≠ DonationStatus.COMPLETED ∧
          phonepeDonationStatus (mapPhonepeState resp.state) =
            DonationStatus.COMPLETED then
          sendThankYouSafe
            { { pd with status := phonepeDonationStatus (mapPhonepeState resp.state) } with
              status := phonepeDonationStatus (mapPhonepeState resp.state) }
        else []) = [] := by
        rw [if_neg]
        rintro ⟨h1, h2⟩
        exact h1 h2
      rw [hgate]
    · by_cases hc : pd.status ≠ DonationStatus.COMPLETED ∧
          phonepeDonationStatus (mapPhonepeState resp.state) = DonationStatus.COMPLETED
      · rw [if_pos hc, if_pos hc, sendThankYouSafe, if_neg hpmail]
        rfl
      · rw [if_neg hc, if_neg hc]
        rfl

/-- Witness for C2 at a concrete pending order receiving a successful
report on both providers. -/
theorem C2_idempotent_reconciliation_witness :
    (∃ db1 log1 e1,
      handle_sbiepay_response
          { sbiLogs := [{ sampleLogSuccess with
              payment_status := SbiePayPaymentStatus.PENDING }]
            phonepeLogs := []
            donations := [{ sampleDonationCompleted with
              status := DonationStatus.PENDING }] }
          (.success { samplePendingParsed with transaction_status := "SUCCESS" }
            "raw") none = (db1, .ok (log1, e1)) ∧
      handle_sbiepay_response db1
          (.success { samplePendingParsed with transaction_status := "SUCCESS" }
            "raw") none = (db1, .ok (log1, [])) ∧
      e1.length =
        (if ({ sampleLogSuccess with
              payment_status := SbiePayPaymentStatus.PENDING } :
                SbiePayLog).payment_status ≠ SbiePayPaymentStatus.SUCCESS ∧
            mapSbiTransactionStatus "SUCCESS" = SbiePayPaymentStatus.SUCCESS
         then 1 else 0)) ∧
    (∃ pdb1 plog1 pe1,
      get_phonepe_payment_status
          { sbiLogs := []
            phonepeLogs := [{ merchant_order_id := "SK-2001"
                              payment_status := PhonePePaymentStatus.PENDING
                              phonepe_payment_details := none }]
            donations := [{ order_id := "SK-2001"
                            status := DonationStatus.PENDING
                            email := "donor@example.org" }] }
          "SK-2001" { state := PhonePeState.COMPLETED, payment_details := none } =
        (pdb1, .ok (plog1, pe1)) ∧
      get_phonepe_payment_status pdb1 "SK-2001"
          { state := PhonePeState.COMPLETED, payment_details := none } =
        (pdb1, .ok (plog1, [])) ∧
      pe1.length =
        (if ({ order_id := "SK-2001", status := DonationStatus.PENDING,
               email := "donor@example.org" } : Donation).status ≠
              DonationStatus.COMPLETED ∧
            phonepeDonationStatus (mapPhonepeState PhonePeState.COMPLETED) =
              DonationStatus.COMPLETED
         then 1 else 0)) :=
  C2_idempotent_reconciliation
    { sbiLogs := [{ sampleLogSuccess with
        payment_status := SbiePayPaymentStatus.PENDING }]
      phonepeLogs := []
      donations := [{ sampleDonationCompleted with
        status := DonationStatus.PENDING }] }
    { samplePendingParsed with transaction_status := "SUCCESS" } "raw"
    { sampleLogSuccess with payment_status := SbiePayPaymentStatus.PENDING }
    { sampleDonationCompleted with status := DonationStatus.PENDING }
    rfl rfl (by decide)
    { sbiLogs := []
      phonepeLogs := [{ merchant_order_id := "SK-2001"
                        payment_status := PhonePePaymentStatus.PENDING
                        phonepe_payment_details := none }]
      donations := [{ order_id := "SK-2001"
                      status := DonationStatus.PENDING
                      email := "donor@example.org" }] }
    "SK-2001" { state := PhonePeState.COMPLETED, payment_details := none }
    { merchant_order_id := "SK-2001"
      payment_status := PhonePePaymentStatus.PENDING
      phonepe_payment_details := none }
    { order_id := "SK-2001", status := DonationStatus.PENDING,
      email := "donor@example.org" }
    rfl rfl (by decide)

end Claims

end SukruthaKeralam
